import Mathlib

/-!
Shallow embedding of the USB mass-storage stack of `usb-wasm`
(`command-components/mass-storage/src/bulk_only.rs`,
`command-components/mass-storage/src/bulk_only/native.rs` and
`command-components/mass-storage/src/mass_storage.rs`).

Machine integers (`u8`, `u16`, `u32`, `u64`, `usize`) are modelled as `Nat`;
byte strings as `List Nat`. Rust panics (failed `assert!`, out-of-bounds
slicing, `copy_from_slice` length mismatch, unsigned-subtraction overflow)
are modelled as `none` / an aborted result. Functions that talk to the USB
device take the device's answers as explicit arguments and return the list
of SCSI commands they issued as an explicit trace.
-/

/-- Little-endian byte encoding of a `u32` value (`BytesMut::put_u32_le`). -/
def u32le (n : Nat) : List Nat :=
  [n % 256, n / 256 % 256, n / 65536 % 256, n / 16777216 % 256]

/-- Big-endian byte encoding of a `u32` value (`BytesMut::put_u32`). -/
def u32be (n : Nat) : List Nat :=
  [n / 16777216 % 256, n / 65536 % 256, n / 256 % 256, n % 256]

/-- Big-endian byte encoding of a `u16` value (`BytesMut::put_u16`). -/
def u16be (n : Nat) : List Nat :=
  [n / 256 % 256, n % 256]

/-- Rust slice expression `src[i..j]`; `none` models the panic when the
range is ill-formed or out of bounds. -/
def sliceRange (src : List Nat) (i j : Nat) : Option (List Nat) :=
  if i ≤ j ∧ j ≤ src.length then some ((src.take j).drop i) else none

/-- Rust `dst[i..j].copy_from_slice(src)`; `none` models the panic when the
range is out of bounds or the lengths differ. -/
def copyRange (dst : List Nat) (i j : Nat) (src : List Nat) : Option (List Nat) :=
  if i ≤ j ∧ j ≤ dst.length ∧ src.length = j - i then
    some (dst.take i ++ src ++ dst.drop j)
  else none

/-- Rust `slice::chunks(512)`: consecutive chunks of 512 bytes, the last one
possibly shorter. -/
def chunks512 (l : List Nat) : List (List Nat) :=
  (List.range ((l.length + 511) / 512)).map (fun i => (l.drop (512 * i)).take 512)

/-- Bytes a device with block size `B` returns for a READ(10) at logical
block `address` for `blocks` blocks (the data phase of `read_blocks`). -/
def readBlocksData (disk : Nat → Nat) (B address blocks : Nat) : List Nat :=
  (List.range (blocks * B)).map (fun i => disk (address * B + i))

/-- SCSI command issued to the device, as observed on the wire
(`read_blocks` issues `read10`, `write_blocks` issues `write10`). -/
inductive ScsiCmd where
  | read10 (lba : Nat) (count : Nat)
  | write10 (lba : Nat) (count : Nat) (data : List Nat)
  deriving DecidableEq, Repr

/- ----------------------------------------------------------------- -/
/- Bulk-Only Transport layer (bulk_only.rs / bulk_only/native.rs)    -/
/- ----------------------------------------------------------------- -/

/-- `enum BulkOnlyTransportError` (bulk_only.rs). -/
inductive BulkOnlyTransportError where
  | InvalidLUN
  | IncorrectTag
  deriving DecidableEq, Repr

/-- `BulkOnlyTransportDevice::select_lun` (bulk_only.rs lines 103-109 and
bulk_only/native.rs lines 116-122): returns the newly selected LUN on
success. -/
def select_lun (max_lun lun : Nat) : Except BulkOnlyTransportError Nat :=
  if max_lun > lun then Except.error BulkOnlyTransportError.InvalidLUN
  else Except.ok lun

/-- `Direction` of the data phase of a transfer (In = device to host). -/
inductive Direction where
  | In
  | Out
  deriving DecidableEq, Repr

/-- `struct BulkOnlyTransportCommandBlock` (bulk_only.rs). -/
structure BulkOnlyTransportCommandBlock where
  command_block : List Nat
  transfer_length : Nat
  deriving DecidableEq, Repr

/-- `struct CommandBlockWrapper` (bulk_only.rs). -/
structure CommandBlockWrapper where
  tag : Nat
  transfer_length : Nat
  direction : Direction
  lun : Nat
  cbwcb : List Nat
  deriving DecidableEq, Repr

/-- The 31 bytes `CommandBlockWrapper::to_bytes` appends to its buffer. -/
def cbwBytesRaw (c : CommandBlockWrapper) : List Nat :=
  u32le 0x43425355 ++ u32le c.tag ++ u32le c.transfer_length ++
    [match c.direction with | Direction.Out => 0 | Direction.In => 128] ++
    [c.lun] ++ [c.cbwcb.length] ++ c.cbwcb ++ List.replicate (16 - c.cbwcb.length) 0

/-- `CommandBlockWrapper::to_bytes` (bulk_only.rs lines 221-243); the two
`assert!`s on the LUN and on the CBWCB length are modelled as `none`. -/
def CommandBlockWrapper.to_bytes (c : CommandBlockWrapper) : Option (List Nat) :=
  if c.lun < 16 ∧ 1 ≤ c.cbwcb.length ∧ c.cbwcb.length ≤ 16 then
    some (cbwBytesRaw c)
  else none

/-- `enum CommandStatusWrapperStatus` (bulk_only.rs). -/
inductive CommandStatusWrapperStatus where
  | CommandPassed
  | CommandFailed
  | PhaseError
  | ReservedObsolete
  | Reserved
  deriving DecidableEq, Repr

/-- `struct CommandStatusWrapper` (bulk_only.rs). -/
structure CommandStatusWrapper where
  tag : Nat
  data_residue : Nat
  status : CommandStatusWrapperStatus
  deriving DecidableEq, Repr

/-- `CommandStatusWrapper::from_bytes` (bulk_only.rs lines 264-287): asserts
the length is 13 and the little-endian signature is 0x53425355 (both
modelled as `none`), then reads the little-endian tag and residue and maps
the status byte. -/
def CommandStatusWrapper.from_bytes (bytes : List Nat) : Option CommandStatusWrapper :=
  match bytes with
  | [s0, s1, s2, s3, t0, t1, t2, t3, r0, r1, r2, r3, st] =>
    if s0 + 256 * s1 + 65536 * s2 + 16777216 * s3 = 0x53425355 then
      some ⟨t0 + 256 * t1 + 65536 * t2 + 16777216 * t3,
            r0 + 256 * r1 + 65536 * r2 + 16777216 * r3,
            if st = 0 then CommandStatusWrapperStatus.CommandPassed
            else if st = 1 then CommandStatusWrapperStatus.CommandFailed
            else if st = 2 then CommandStatusWrapperStatus.PhaseError
            else if st = 3 ∨ st = 4 then CommandStatusWrapperStatus.ReservedObsolete
            else CommandStatusWrapperStatus.Reserved⟩
    else none
  | _ => none

/-- `BulkOnlyTransportDevice::command_in` (bulk_only.rs lines 112-153), as a
function of the selected LUN, the tag handed out by `get_tag`, and the two
bulk-IN answers of the device (the data phase and the 13 CSW bytes).
`none` models a panic (a failed `assert!` inside `to_bytes` or
`from_bytes`). -/
def command_in (selected_lun tag : Nat) (cb : BulkOnlyTransportCommandBlock)
    (deviceData csw_bytes : List Nat) :
    Option (Except BulkOnlyTransportError (CommandStatusWrapper × List Nat)) :=
  let cbw : CommandBlockWrapper :=
    ⟨tag, cb.transfer_length, Direction.In, selected_lun, cb.command_block⟩
  match cbw.to_bytes with
  | none => none
  | some _ =>
    match CommandStatusWrapper.from_bytes csw_bytes with
    | none => none
    | some csw =>
      if csw.tag ≠ tag then some (Except.error BulkOnlyTransportError.IncorrectTag)
      else some (Except.ok (csw, deviceData))

/-- `BulkOnlyTransportDevice::command_out` (bulk_only.rs lines 155-197); the
optional payload is bulk-OUT to the device and does not influence the
result. -/
def command_out (selected_lun tag : Nat) (cb : BulkOnlyTransportCommandBlock)
    (_payload : Option (List Nat)) (csw_bytes : List Nat) :
    Option (Except BulkOnlyTransportError CommandStatusWrapper) :=
  let cbw : CommandBlockWrapper :=
    ⟨tag, cb.transfer_length, Direction.Out, selected_lun, cb.command_block⟩
  match cbw.to_bytes with
  | none => none
  | some _ =>
    match CommandStatusWrapper.from_bytes csw_bytes with
    | none => none
    | some csw =>
      if csw.tag ≠ tag then some (Except.error BulkOnlyTransportError.IncorrectTag)
      else some (Except.ok csw)

/-- CDB built by `MassStorageDevice::read_blocks` (mass_storage.rs lines
165-172): opcode 0x28, a zero byte, big-endian LBA, a zero byte, big-endian
block count, control byte 0. -/
def read10Cdb (address count : Nat) : List Nat :=
  [0x28, 0] ++ u32be address ++ [0] ++ u16be count ++ [0]

/- ----------------------------------------------------------------- -/
/- Mass storage device layer (mass_storage.rs)                       -/
/- ----------------------------------------------------------------- -/

/-- `enum MassStorageDeviceError` (mass_storage.rs). -/
inductive MassStorageDeviceError where
  | IncompatibleDevice
  | NotReady
  deriving DecidableEq, Repr

/-- `struct MassStorageDeviceProperties` (mass_storage.rs lines 21-27). -/
structure MassStorageDeviceProperties where
  name : String
  capacity : Nat
  total_number_of_blocks : Nat
  block_size : Nat
  deriving DecidableEq, Repr

/-- `struct InquiryResponse` (mass_storage.rs lines 530-552), with the
fields already decoded from the 36 INQUIRY bytes. -/
structure InquiryResponse where
  peripheral_qualifier : Nat
  peripheral_device_type : Nat
  removable_media : Bool
  version : Nat
  response_data_format : Nat
  vendor_id : String
  product_id : String
  product_revision : String
  deriving DecidableEq, Repr

/-- `struct ReadCapacityResponse` (mass_storage.rs lines 596-601). -/
structure ReadCapacityResponse where
  returned_logical_block_address : Nat
  block_length_in_bytes : Nat
  capacity_in_bytes : Nat
  deriving DecidableEq, Repr

/-- `ReadCapacityResponse::from_bytes` (mass_storage.rs lines 603-617): two
big-endian u32 reads from the 8-byte READ CAPACITY answer (`none` models
the `bytes` panic when fewer than 8 bytes arrive). -/
def ReadCapacityResponse.from_bytes (data : List Nat) : Option ReadCapacityResponse :=
  match data with
  | a0 :: a1 :: a2 :: a3 :: b0 :: b1 :: b2 :: b3 :: _ =>
    let lba := ((a0 * 256 + a1) * 256 + a2) * 256 + a3
    let blen := ((b0 * 256 + b1) * 256 + b2) * 256 + b3
    some ⟨lba, blen, lba * blen⟩
  | _ => none

/-- `MassStorageDevice::new` (mass_storage.rs lines 63-99), as a function of
the outcomes of the three bring-up SCSI exchanges: the TEST UNIT READY
verdict, the decoded INQUIRY answer and the decoded READ CAPACITY answer.
On success it returns the recorded properties. -/
def MassStorageDevice.new (ready : Bool) (inquiry : InquiryResponse)
    (capacity : ReadCapacityResponse) :
    Except MassStorageDeviceError MassStorageDeviceProperties :=
  if !ready then Except.error MassStorageDeviceError.NotReady
  else if inquiry.peripheral_qualifier ≠ 0 ∧ inquiry.peripheral_device_type ≠ 0 then
    Except.error MassStorageDeviceError.IncompatibleDevice
  else
    Except.ok
      { name := inquiry.vendor_id ++ " " ++ inquiry.product_id
        capacity := capacity.block_length_in_bytes * capacity.returned_logical_block_address
        block_size := capacity.block_length_in_bytes
        total_number_of_blocks := capacity.returned_logical_block_address }

/-- `const CACHE_SIZE` (mass_storage.rs line 11). -/
def CACHE_SIZE : Nat := 128

/-- `struct CacheEntry` (mass_storage.rs lines 29-34). -/
structure CacheEntry where
  block : Nat
  data : List Nat
  dirty : Bool
  deriving DecidableEq, Repr

/-- `CacheEntry::from_vec` (mass_storage.rs lines 41-45): copies `data` into
a fresh 512-byte array; the inner `copy_from_slice` panics unless the
length is exactly 512. -/
def CacheEntry.from_vec (block : Nat) (data : List Nat) (dirty : Bool) : Option CacheEntry :=
  if data.length = 512 then some ⟨block, data, dirty⟩ else none

/-- Model of `uluru::LRUCache<CacheEntry, 128>` as a list whose head is the
most recently used entry. `lruLookup` is the lookup half of
`LRUCache::find`. -/
def lruLookup (cache : List CacheEntry) (b : Nat) : Option CacheEntry :=
  cache.find? (fun e => e.block = b)

/-- Promotion half of `uluru::LRUCache::find`: a matching entry moves to the
front of the recency order. -/
def lruPromote (cache : List CacheEntry) (b : Nat) : List CacheEntry :=
  match cache.find? (fun e => e.block = b) with
  | none => cache
  | some e => e :: cache.eraseP (fun x => decide (x.block = b))

/-- `uluru::LRUCache::find` followed by a mutation of the returned entry
through its `&mut` reference: the modified entry sits at the front. -/
def lruModify (cache : List CacheEntry) (b : Nat) (f : CacheEntry → CacheEntry) :
    List CacheEntry :=
  match cache.find? (fun e => e.block = b) with
  | none => cache
  | some e => f e :: cache.eraseP (fun x => decide (x.block = b))

/-- `uluru::LRUCache::insert`: the new entry becomes most recently used; when
the cache already holds `CACHE_SIZE` entries the least recently used entry
is evicted and returned. -/
def lruInsert (cache : List CacheEntry) (e : CacheEntry) :
    List CacheEntry × Option CacheEntry :=
  if cache.length < CACHE_SIZE then (e :: cache, none)
  else (e :: cache.dropLast, cache.getLast?)

/-- `MassStorageDevice::flush_cache` (mass_storage.rs lines 105-118): one
1-block WRITE(10) per dirty entry, in recency iteration order, then the
cache is cleared. -/
def flush_cache (cache : List CacheEntry) : List ScsiCmd × List CacheEntry :=
  ((cache.filter (fun e => e.dirty)).map (fun e => ScsiCmd.write10 e.block 1 e.data), [])

/-- Mutable state of a `MassStorageDevice` relevant to byte I/O: the recorded
properties, the block cache and the stream cursor. -/
structure MsdState where
  props : MassStorageDeviceProperties
  cache : List CacheEntry
  cursor : Nat
  deriving DecidableEq, Repr

/- ----------------------------------------------------------------- -/
/- Byte-addressed read (impl Read for MassStorageDevice)             -/
/- ----------------------------------------------------------------- -/

/-- Loop state of the hit/miss walk over the requested blocks
(mass_storage.rs lines 312-346). -/
structure ReadWalkState where
  buf : List Nat
  cache : List CacheEntry
  new_range : Option Nat
  ranges : List (Nat × Nat)
  deriving DecidableEq, Repr

/-- One iteration of the hit/miss walk (mass_storage.rs lines 315-343).
On a cache hit the entry's bytes are copied into the output buffer at a
position depending on whether the block is the first, the last, both, or
interior; the interior case computes `(start_block - block) as usize` on
`u32`, which overflows (panics) because `block > start_block` there, so it
is modelled as `none` whenever `block > sb`. A finished miss-run is pushed
onto `ranges`, but `new_range` is not cleared afterwards, exactly as in the
source. -/
def readWalkStep (sb eb off_s off_e nb : Nat) (st : ReadWalkState) (block : Nat) :
    Option ReadWalkState :=
  match lruLookup st.cache block with
  | some entry =>
    let cache := lruPromote st.cache block
    let bufOpt : Option (List Nat) :=
      if block = sb ∧ block = eb then
        match sliceRange entry.data off_s off_e with
        | none => none
        | some src => copyRange st.buf 0 st.buf.length src
      else if block = sb then
        match sliceRange entry.data off_s entry.data.length with
        | none => none
        | some src => copyRange st.buf 0 (512 - off_s) src
      else if block = eb then
        match sliceRange entry.data 0 off_e with
        | none => none
        | some src => copyRange st.buf ((512 - off_s) + (nb - 2) * 512) st.buf.length src
      else
        if sb < block then none
        else
          copyRange st.buf ((512 - off_s) + (sb - block) * 512)
            ((512 - off_s) + (sb - block) * 512 + 512) entry.data
    match bufOpt with
    | none => none
    | some buf =>
      match st.new_range with
      | some s => some ⟨buf, cache, some s, st.ranges ++ [(s, block)]⟩
      | none => some ⟨buf, cache, none, st.ranges⟩
  | none =>
    match st.new_range with
    | none => some ⟨st.buf, st.cache, some block, st.ranges⟩
    | some s => some ⟨st.buf, st.cache, some s, st.ranges⟩

/-- The hit/miss walk over all requested blocks. -/
def readWalk (sb eb off_s off_e nb : Nat) :
    List Nat → ReadWalkState → Option ReadWalkState
  | [], st => some st
  | b :: rest, st =>
    match readWalkStep sb eb off_s off_e nb st b with
    | none => none
    | some st2 => readWalk sb eb off_s off_e nb rest st2

/-- Cache admission of the chunks returned by a miss-run READ(10)
(mass_storage.rs lines 368-382). Chunk `i` is admitted for block
`start + i`; when inserting evicts a dirty entry, the source issues
`write_blocks(block, 1, &evicted_entry.data)` — the LBA is the block just
admitted, and the data is the evicted entry's. Returns the commands issued
so far even when a later step panics. -/
def admitChunks (start : Nat) :
    List (List Nat) → Nat → List CacheEntry → List ScsiCmd →
    List ScsiCmd × Option (List CacheEntry)
  | [], _, cache, tr => (tr, some cache)
  | chunk :: rest, i, cache, tr =>
    let block := start + i
    match lruLookup cache block with
    | some _ =>
      if chunk.length = 512 then
        admitChunks start rest (i + 1)
          (lruModify cache block (fun e => ⟨e.block, chunk, e.dirty⟩)) tr
      else (tr, none)
    | none =>
      match CacheEntry.from_vec block chunk false with
      | none => (tr, none)
      | some value =>
        match lruInsert cache value with
        | (cache2, some ev) =>
          if ev.dirty then
            admitChunks start rest (i + 1) cache2 (tr ++ [ScsiCmd.write10 block 1 ev.data])
          else admitChunks start rest (i + 1) cache2 tr
        | (cache2, none) => admitChunks start rest (i + 1) cache2 tr

/-- Placement of a miss-run's data into the output buffer (mass_storage.rs
lines 384-402), with the four positional branches of the source. -/
def rangeCopy (sb eb off_s off_e nb : Nat) (buf data : List Nat) (s e : Nat) :
    Option (List Nat) :=
  if s = sb ∧ e = eb + 1 then
    match sliceRange data off_s ((nb - 1) * 512 + off_e) with
    | none => none
    | some src => copyRange buf 0 buf.length src
  else if s = sb then
    match sliceRange data off_s ((nb - 1) * 512) with
    | none => none
    | some src => copyRange buf 0 ((512 - off_s) + (e - sb - 1) * 512) src
  else if e = eb + 1 then
    match sliceRange data 0 ((nb - 1) * 512 + off_e) with
    | none => none
    | some src => copyRange buf ((512 - off_s) + (s - sb - 1) * 512) buf.length src
  else
    copyRange buf ((512 - off_s) + (s - sb - 1) * 512)
      ((512 - off_s) + (e - sb - 1) * 512) data

/-- Processing of the collected miss-runs (mass_storage.rs lines 360-403):
for each run `(s, e)` the source calls
`read_blocks(start_block, (e - s) as u16)` — the LBA passed is
`start_block`, the first block of the whole request — then admits the
returned chunks for blocks `s, s+1, …` and copies the data into the output
buffer. Returns the trace of issued commands together with the final
buffer and cache, or `none` after a panic. -/
def readFill (disk : Nat → Nat) (B sb eb off_s off_e nb : Nat) :
    List (Nat × Nat) → List Nat → List CacheEntry → List ScsiCmd →
    List ScsiCmd × Option (List Nat × List CacheEntry)
  | [], buf, cache, tr => (tr, some (buf, cache))
  | (s, e) :: rest, buf, cache, tr =>
    let count := (e - s) % 65536
    let data := readBlocksData disk B sb count
    let tr2 := tr ++ [ScsiCmd.read10 sb count]
    let adm :=
      if 512 * CACHE_SIZE < data.length then data.drop (data.length - 512 * CACHE_SIZE)
      else data
    match admitChunks s (chunks512 adm) 0 cache tr2 with
    | (tr3, none) => (tr3, none)
    | (tr3, some cache2) =>
      match rangeCopy sb eb off_s off_e nb buf data s e with
      | none => (tr3, none)
      | some buf2 => readFill disk B sb eb off_s off_e nb rest buf2 cache2 tr3

/-- `<MassStorageDevice as Read>::read` (mass_storage.rs lines 287-408).
Takes the device state, the disk contents, and the caller's buffer; returns
the SCSI commands issued together with (on non-panicking executions) the
new state, the filled buffer and the byte count returned to the caller. -/
def msdRead (st : MsdState) (disk : Nat → Nat) (buf0 : List Nat) :
    List ScsiCmd × Option (MsdState × List Nat × Nat) :=
  let start_address := st.cursor
  let end_address := min (st.cursor + buf0.length) st.props.capacity
  let num_bytes := end_address - start_address
  if num_bytes = 0 then ([], some (st, buf0, 0))
  else
    let B := st.props.block_size
    if B = 0 then ([], none)
    else
      let sb := start_address / B
      let off_s := start_address % B
      let eb := (end_address - 1) / B
      let nb := eb - sb + 1
      let off_e := (end_address - 1) % B + 1
      let blocks := (List.range (eb + 1 - sb)).map (fun i => sb + i)
      match readWalk sb eb off_s off_e nb blocks ⟨buf0, st.cache, none, []⟩ with
      | none => ([], none)
      | some w =>
        let ranges :=
          match w.new_range with
          | some s => w.ranges ++ [(s, eb + 1)]
          | none => w.ranges
        match readFill disk B sb eb off_s off_e nb ranges w.buf w.cache [] with
        | (tr, none) => (tr, none)
        | (tr, some (buf, cache)) =>
          (tr, some (⟨st.props, cache, st.cursor + num_bytes⟩, buf, num_bytes))

/- ----------------------------------------------------------------- -/
/- Byte-addressed write (impl Write for MassStorageDevice)           -/
/- ----------------------------------------------------------------- -/

/-- Cache-update loop of the multi-block write path (mass_storage.rs lines
491-505). On a hit the source does `item.data.copy_from_slice(&data)` with
the whole working buffer as source, which panics unless `data` is exactly
512 bytes; on a miss it admits `data[i*512..(i+1)*512]` with `dirty =
false`, and a dirty eviction issues `write_blocks(key, 1, …)` with the LBA
of the block just admitted. -/
def writeCacheLoop (sb : Nat) (d : List Nat) :
    List Nat → List CacheEntry → List ScsiCmd → List ScsiCmd × Option (List CacheEntry)
  | [], cache, tr => (tr, some cache)
  | i :: rest, cache, tr =>
    let key := sb + i
    match lruLookup cache key with
    | some _ =>
      if d.length = 512 then
        writeCacheLoop sb d rest (lruModify cache key (fun e => ⟨e.block, d, e.dirty⟩)) tr
      else (tr, none)
    | none =>
      match sliceRange d (i * 512) ((i + 1) * 512) with
      | none => (tr, none)
      | some chunk =>
        match CacheEntry.from_vec key chunk false with
        | none => (tr, none)
        | some value =>
          match lruInsert cache value with
          | (cache2, some ev) =>
            if ev.dirty then
              writeCacheLoop sb d rest cache2 (tr ++ [ScsiCmd.write10 key 1 ev.data])
            else writeCacheLoop sb d rest cache2 tr
          | (cache2, none) => writeCacheLoop sb d rest cache2 tr

/-- `<MassStorageDevice as Write>::write` (mass_storage.rs lines 412-511).
Takes the device state, the disk contents and the bytes to write; returns
the SCSI commands issued together with (on non-panicking executions) the
new state and the byte count returned to the caller. -/
def msdWrite (st : MsdState) (disk : Nat → Nat) (buf : List Nat) :
    List ScsiCmd × Option (MsdState × Nat) :=
  let start_address := st.cursor
  let end_address := min (st.cursor + buf.length) st.props.capacity
  let num_bytes := end_address - start_address
  if num_bytes = 0 then ([], some (st, 0))
  else
    let B := st.props.block_size
    if B = 0 then ([], none)
    else
      let sb := start_address / B
      let off_s := start_address % B
      let eb := (end_address - 1) / B
      let nb := (eb - sb + 1) % 65536
      if nb = 1 then
        match lruLookup st.cache sb with
        | some entry =>
          let cache1 := lruPromote st.cache sb
          if entry.data.length = 512 then
            match copyRange entry.data off_s (off_s + buf.length) buf with
            | none => ([], none)
            | some data =>
              let cache2 := lruModify cache1 sb (fun e => ⟨e.block, data, true⟩)
              ([], some (⟨st.props, cache2, st.cursor + num_bytes⟩, num_bytes))
          else ([], none)
        | none =>
          let data0 := readBlocksData disk B sb 1
          let tr := [ScsiCmd.read10 sb 1]
          if data0.length = 512 then
            match copyRange data0 off_s (off_s + buf.length) buf with
            | none => (tr, none)
            | some data =>
              match CacheEntry.from_vec sb data false with
              | none => (tr, none)
              | some value =>
                match lruInsert st.cache value with
                | (cache2, some ev) =>
                  if ev.dirty then
                    (tr ++ [ScsiCmd.write10 sb 1 ev.data],
                     some (⟨st.props, cache2, st.cursor + num_bytes⟩, num_bytes))
                  else ([ScsiCmd.read10 sb 1],
                        some (⟨st.props, cache2, st.cursor + num_bytes⟩, num_bytes))
                | (cache2, none) =>
                  ([ScsiCmd.read10 sb 1],
                   some (⟨st.props, cache2, st.cursor + num_bytes⟩, num_bytes))
          else (tr, none)
      else
        let step1 : List ScsiCmd × Option (List Nat × List CacheEntry) :=
          match lruLookup st.cache sb with
          | some entry =>
            match copyRange (List.replicate (nb * 512) 0) 0 512 entry.data with
            | none => ([], none)
            | some d => ([], some (d, lruPromote st.cache sb))
          | none =>
            let od := readBlocksData disk B sb 1
            match copyRange (List.replicate (nb * 512) 0) 0 512 od with
            | none => ([ScsiCmd.read10 sb 1], none)
            | some d => ([ScsiCmd.read10 sb 1], some (d, st.cache))
        match step1 with
        | (tr1, none) => (tr1, none)
        | (tr1, some (d1, c1)) =>
          let step2 : List ScsiCmd × Option (List Nat × List CacheEntry) :=
            match lruLookup c1 eb with
            | some entry =>
              match copyRange d1 (nb * 512 - 512) (nb * 512) entry.data with
              | none => (tr1, none)
              | some d => (tr1, some (d, lruPromote c1 eb))
            | none =>
              let od := readBlocksData disk B eb 1
              match copyRange d1 (nb * 512 - 512) (nb * 512) od with
              | none => (tr1 ++ [ScsiCmd.read10 eb 1], none)
              | some d => (tr1 ++ [ScsiCmd.read10 eb 1], some (d, c1))
          match step2 with
          | (tr2, none) => (tr2, none)
          | (tr2, some (d2, c2)) =>
            match copyRange d2 off_s (off_s + buf.length) buf with
            | none => (tr2, none)
            | some d3 =>
              let tr3 := tr2 ++ [ScsiCmd.write10 sb nb d3]
              match writeCacheLoop sb d3 (List.range nb) c2 tr3 with
              | (tr4, none) => (tr4, none)
              | (tr4, some c3) =>
                (tr4, some (⟨st.props, c3, st.cursor + num_bytes⟩, num_bytes))

/- ----------------------------------------------------------------- -/
/- Claims                                                            -/
/- ----------------------------------------------------------------- -/

deriving instance DecidableEq for Except

set_option maxRecDepth 100000

/-- C1: after a bring-up in which READ CAPACITY answers last_LBA = 7 and
block_length = 512, the source records `total_number_of_blocks = 7` and
`capacity = 512 · 7 = 3584` — not the claimed `last_LBA + 1 = 8` blocks and
`4096` bytes. The last two conjuncts record the gap to the claimed
values. -/
theorem c1_bringup_records_lastlba_times_blocksize :
    ReadCapacityResponse.from_bytes [0, 0, 0, 7, 0, 0, 2, 0] = some ⟨7, 512, 3584⟩ ∧
    MassStorageDevice.new true ⟨0, 0, true, 4, 2, "ACME", "USBSTICK", "1.00"⟩
        ⟨7, 512, 3584⟩ =
      Except.ok ⟨"ACME USBSTICK", 3584, 7, 512⟩ ∧
    (3584 : Nat) ≠ (7 + 1) * 512 ∧ (7 : Nat) ≠ 7 + 1 := by
  decide

/-- C5: the source rejects a device only when BOTH `peripheral_qualifier`
and `peripheral_device_type` are nonzero (`&&` in the source); a response
with qualifier 0 and type 5, or qualifier 3 and type 0, is accepted and a
device is created. -/
theorem c5_inquiry_rejection_requires_both_nonzero :
    MassStorageDevice.new true ⟨0, 5, true, 4, 2, "V", "P", "R"⟩ ⟨7, 512, 3584⟩ =
      Except.ok ⟨"V P", 3584, 7, 512⟩ ∧
    MassStorageDevice.new true ⟨3, 0, true, 4, 2, "V", "P", "R"⟩ ⟨7, 512, 3584⟩ =
      Except.ok ⟨"V P", 3584, 7, 512⟩ ∧
    MassStorageDevice.new true ⟨3, 5, true, 4, 2, "V", "P", "R"⟩ ⟨7, 512, 3584⟩ =
      Except.error MassStorageDeviceError.IncompatibleDevice := by
  decide

/-- C6: the comparison in `select_lun` is inverted: with max_lun = 1,
selecting LUN 0 (which is ≤ max_lun) fails with InvalidLUN, while with
max_lun = 0, selecting LUN 5 (which is > max_lun) succeeds. -/
theorem c6_select_lun_comparison_inverted :
    select_lun 1 0 = Except.error BulkOnlyTransportError.InvalidLUN ∧
    select_lun 0 5 = Except.ok 5 ∧
    select_lun 2 2 = Except.ok 2 := by
  decide

/-- C2: with capacity 1024, block 0 cached and block 1 absent, `read` at
cursor 256 with a 512-byte buffer issues READ(10) LBA=0 count=1 — the LBA
handed to `read_blocks` is `start_block`, not the miss-run's first block
1 — and then panics while placing the returned 512 bytes (it slices
`data[..768]`). -/
theorem c2_missrun_read_issued_at_start_block :
    msdRead ⟨⟨"", 1024, 2, 512⟩, [⟨0, List.replicate 512 7, false⟩], 256⟩
        (fun _ => 0) (List.replicate 512 0) =
      ([ScsiCmd.read10 0 1], none) := by
  decide

/-- C3: a full 128-entry cache whose only dirty entry is the least recently
used one (block 137); reading the uncached block 0 evicts it, and the
write-back is issued as WRITE(10) LBA=0 — the block just admitted — even
though it carries block 137's data. -/
theorem c3_dirty_eviction_write_targets_admitted_block :
    (((List.range 128).map
        (fun i => (⟨10 + i, List.replicate 512 3, i == 127⟩ : CacheEntry))).filter
        (fun e => e.dirty)) = [⟨137, List.replicate 512 3, true⟩] ∧
    (msdRead ⟨⟨"", 4096, 8, 512⟩,
        (List.range 128).map (fun i => ⟨10 + i, List.replicate 512 3, i == 127⟩), 0⟩
        (fun _ => 5) (List.replicate 512 0)).1 =
      [ScsiCmd.read10 0 1, ScsiCmd.write10 0 1 (List.replicate 512 3)] := by
  decide

/-- C4: a single-block byte-write on a cache miss (fresh cache, 300 bytes at
offset 100) admits the spliced block with `dirty = false`, so a following
flush issues no WRITE(10) at all; the spliced bytes are silently dropped
when the cache is cleared. -/
theorem c4_single_block_write_miss_admitted_clean :
    msdWrite ⟨⟨"", 1024, 2, 512⟩, [], 100⟩ (fun _ => 0) (List.replicate 300 170) =
      ([ScsiCmd.read10 0 1],
       some (⟨⟨"", 1024, 2, 512⟩,
              [⟨0, List.replicate 100 0 ++ List.replicate 300 170 ++ List.replicate 112 0,
                false⟩], 400⟩, 300)) ∧
    (flush_cache
        [⟨0, List.replicate 100 0 ++ List.replicate 300 170 ++ List.replicate 112 0,
          false⟩]).1 = [] := by
  decide

/-- C9: a read that straddles the end of the device (capacity 1024, cursor
768, 512-byte buffer) should return min(512, 1024−768) = 256 bytes, but
the source copies the 256 truncated bytes into the full 512-byte buffer
with `copy_from_slice` and panics on the length mismatch. -/
theorem c9_truncated_read_panics :
    msdRead ⟨⟨"", 1024, 2, 512⟩, [], 768⟩ (fun _ => 0) (List.replicate 512 0) =
      ([ScsiCmd.read10 1 1], none) := by
  decide

/-- C10: a three-block read (cursor 0, 1536-byte buffer) whose interior
block 1 is cached panics before issuing any command: the source computes
`(start_block - block) as usize` on u32 with start_block = 0 < block = 1,
an unsigned-subtraction overflow. -/
theorem c10_interior_cached_block_copy_underflows :
    msdRead ⟨⟨"", 2048, 4, 512⟩, [⟨1, List.replicate 512 9, false⟩], 0⟩
        (fun _ => 0) (List.replicate 1536 0) = ([], none) := by
  decide

/-- Helper: under the LUN and CBWCB-length constraints, `to_bytes` succeeds
and returns the raw 31-byte layout. -/
theorem to_bytes_eq_of_valid (c : CommandBlockWrapper)
    (h : c.lun < 16 ∧ 1 ≤ c.cbwcb.length ∧ c.cbwcb.length ≤ 16) :
    c.to_bytes = some (cbwBytesRaw c) := by
  simp [CommandBlockWrapper.to_bytes, h.1, h.2.1, h.2.2]

/-- C7: for every CBW with a LUN below 16 and a CBWCB of length 1..16,
encoding yields exactly 31 bytes: the little-endian signature 0x43425355,
the little-endian tag, the little-endian transfer length, a flags byte that
is 128 for direction IN and 0 for OUT, the LUN byte, the CBWCB length byte,
the CBWCB and zero padding up to 16 command bytes. -/
theorem c7_cbw_encoding_layout (tag tl lun : Nat) (d : Direction) (cb : List Nat)
    (hlun : lun < 16) (hcb1 : 1 ≤ cb.length) (hcb2 : cb.length ≤ 16) :
    ∃ bytes, CommandBlockWrapper.to_bytes ⟨tag, tl, d, lun, cb⟩ = some bytes ∧
      bytes.length = 31 ∧
      bytes.take 4 = u32le 0x43425355 ∧
      (bytes.drop 4).take 4 = u32le tag ∧
      (bytes.drop 8).take 4 = u32le tl ∧
      (bytes.drop 12).take 1 = [match d with | Direction.In => 128 | Direction.Out => 0] ∧
      (bytes.drop 13).take 1 = [lun] ∧
      (bytes.drop 14).take 1 = [cb.length] ∧
      (bytes.drop 15).take cb.length = cb ∧
      (bytes.drop 15).drop cb.length = List.replicate (16 - cb.length) 0 := by
  refine ⟨cbwBytesRaw ⟨tag, tl, d, lun, cb⟩,
    to_bytes_eq_of_valid _ ⟨hlun, hcb1, hcb2⟩, ?_, ?_, ?_, ?_, ?_, ?_, ?_, ?_, ?_⟩
  · simp only [cbwBytesRaw, u32le, List.length_append, List.length_cons, List.length_nil,
      List.length_replicate]
    omega
  · rfl
  · rfl
  · rfl
  · cases d <;> rfl
  · rfl
  · rfl
  · show (cb ++ List.replicate (16 - cb.length) 0).take cb.length = cb
    simp [List.take_left]
  · show (cb ++ List.replicate (16 - cb.length) 0).drop cb.length = _
    simp [List.drop_left]

/-- Witness for C7 at the spec's concrete READ(10) example: LBA 0xABCD,
count 4, tag 0x11223344, LUN 0, transfer length 4·512 = 2048; the encoded
bytes are exactly the 31 bytes of the claim. -/
theorem c7_cbw_encoding_layout_witness :
    CommandBlockWrapper.to_bytes ⟨0x11223344, 2048, Direction.In, 0, read10Cdb 0xABCD 4⟩ =
      some [0x55, 0x53, 0x42, 0x43, 0x44, 0x33, 0x22, 0x11, 0x00, 0x08, 0x00, 0x00,
            0x80, 0x00, 0x0A, 0x28, 0x00, 0x00, 0x00, 0xAB, 0xCD, 0x00, 0x00, 0x04, 0x00,
            0, 0, 0, 0, 0, 0] ∧
    (∃ bytes,
      CommandBlockWrapper.to_bytes ⟨0x11223344, 2048, Direction.In, 0, read10Cdb 0xABCD 4⟩ =
        some bytes ∧
      bytes.length = 31 ∧
      bytes.take 4 = u32le 0x43425355 ∧
      (bytes.drop 4).take 4 = u32le 0x11223344 ∧
      (bytes.drop 8).take 4 = u32le 2048 ∧
      (bytes.drop 12).take 1 =
        [match Direction.In with | Direction.In => 128 | Direction.Out => 0] ∧
      (bytes.drop 13).take 1 = [0] ∧
      (bytes.drop 14).take 1 = [(read10Cdb 0xABCD 4).length] ∧
      (bytes.drop 15).take (read10Cdb 0xABCD 4).length = read10Cdb 0xABCD 4 ∧
      (bytes.drop 15).drop (read10Cdb 0xABCD 4).length =
        List.replicate (16 - (read10Cdb 0xABCD 4).length) 0) :=
  ⟨by decide,
   c7_cbw_encoding_layout 0x11223344 2048 0 Direction.In (read10Cdb 0xABCD 4)
     (by decide) (by decide) (by decide)⟩

/-- C8: for every exchange whose CBW passes the encoding asserts and whose
13 CSW bytes decode, `command_in` and `command_out` fail with IncorrectTag
exactly when the decoded CSW tag differs from the CBW tag; on equal tags
`command_in` returns the CSW with the data-phase bytes and `command_out`
returns the CSW. -/
theorem c8_exchange_fails_iff_tag_mismatch (lun tag : Nat)
    (cb : BulkOnlyTransportCommandBlock) (dd csw_bytes : List Nat)
    (payload : Option (List Nat)) (csw : CommandStatusWrapper)
    (hlun : lun < 16) (h1 : 1 ≤ cb.command_block.length)
    (h2 : cb.command_block.length ≤ 16)
    (hcsw : CommandStatusWrapper.from_bytes csw_bytes = some csw) :
    (command_in lun tag cb dd csw_bytes =
        some (Except.error BulkOnlyTransportError.IncorrectTag) ↔ csw.tag ≠ tag) ∧
    (csw.tag = tag → command_in lun tag cb dd csw_bytes = some (Except.ok (csw, dd))) ∧
    (command_out lun tag cb payload csw_bytes =
        some (Except.error BulkOnlyTransportError.IncorrectTag) ↔ csw.tag ≠ tag) ∧
    (csw.tag = tag → command_out lun tag cb payload csw_bytes = some (Except.ok csw)) := by
  have hin := to_bytes_eq_of_valid
    ⟨tag, cb.transfer_length, Direction.In, lun, cb.command_block⟩ ⟨hlun, h1, h2⟩
  have hout := to_bytes_eq_of_valid
    ⟨tag, cb.transfer_length, Direction.Out, lun, cb.command_block⟩ ⟨hlun, h1, h2⟩
  by_cases h : csw.tag = tag
  · simp [command_in, command_out, hin, hout, hcsw, h]
  · simp [command_in, command_out, hin, hout, hcsw, h]

/-- Witness for C8: a CSW with matching tag 5 succeeds on both paths, and a
CSW with tag 6 against CBW tag 5 fails with IncorrectTag. -/
theorem c8_exchange_fails_iff_tag_mismatch_witness :
    CommandStatusWrapper.from_bytes [0x55, 0x53, 0x42, 0x53, 5, 0, 0, 0, 0, 0, 0, 0, 0] =
      some ⟨5, 0, CommandStatusWrapperStatus.CommandPassed⟩ ∧
    command_in 0 5 ⟨[0], 0⟩ [] [0x55, 0x53, 0x42, 0x53, 5, 0, 0, 0, 0, 0, 0, 0, 0] =
      some (Except.ok (⟨5, 0, CommandStatusWrapperStatus.CommandPassed⟩, [])) ∧
    command_out 0 6 ⟨[0], 0⟩ none [0x55, 0x53, 0x42, 0x53, 5, 0, 0, 0, 0, 0, 0, 0, 0] =
      some (Except.error BulkOnlyTransportError.IncorrectTag) :=
  ⟨by decide,
   (c8_exchange_fails_iff_tag_mismatch 0 5 ⟨[0], 0⟩ [] _ none
      ⟨5, 0, CommandStatusWrapperStatus.CommandPassed⟩
      (by decide) (by decide) (by decide) (by decide)).2.1 rfl,
   (c8_exchange_fails_iff_tag_mismatch 0 6 ⟨[0], 0⟩ [] _ none
      ⟨5, 0, CommandStatusWrapperStatus.CommandPassed⟩
      (by decide) (by decide) (by decide) (by decide)).2.2.1.mpr (by decide)⟩
